import Mathlib

/-!
Shallow embedding of the stock-addition core of the repository
(clean-arch demonstration): value objects, entities, domain events and the
add-stock orchestrator, together with an effect-trace model of the
collaborators (unit of work, repositories, notification sink, event
publisher).  Go machine integers are modelled by Int (the spec declares
overflow out of scope), Go float64 utilization by Rat (all quantities in
the claims are exact), and time.Now by an explicit clock in the
environment.
-/

namespace StockDemo

/-- Domain errors, from internal/domain/errors.go.  The distinct Go error
values become distinct constructors; quantityNegative is the fresh error
created inside NewStockQuantity; storageError stands for opaque
infrastructure errors injected by the collaborators. -/
inductive DomainError where
  | productNotFound
  | tenantNotFound
  | tenantInactive
  | invalidQuantity
  | invalidProductID
  | quantityNegative
  | stockExceedsLimit (current adding wouldBe maxAllowed : Int)
  | storageError (code : Nat)
deriving Repr, DecidableEq

/-- StockQuantity value object: wraps an integer (internal/domain/entities.go). -/
structure StockQuantity where
  value : Int
deriving Repr, DecidableEq

/-- NewStockQuantity: fails when the argument is negative. -/
def NewStockQuantity (q : Int) : Except DomainError StockQuantity :=
  if q < 0 then .error .quantityNegative else .ok ⟨q⟩

/-- The Value getter. -/
def StockQuantity.Value (q : StockQuantity) : Int := q.value

/-- Add returns a new quantity holding the sum. -/
def StockQuantity.Add (q other : StockQuantity) : StockQuantity :=
  ⟨q.value + other.value⟩

/-- Exceeds: strictly greater than the limit. -/
def StockQuantity.Exceeds (q limit : StockQuantity) : Bool :=
  q.value > limit.value

/-- Product entity (internal/domain/entities.go); LastUpdated is a clock value. -/
structure Product where
  id : String
  name : String
  currentStock : StockQuantity
  lastUpdated : Int
  tenantID : String
deriving Repr, DecidableEq

/-- Product.AddStock: Go mutates the receiver on success; here the updated
entity is returned, and failure leaves the caller with the original. -/
def Product.AddStock (p : Product) (quantity maxLimit : StockQuantity)
    (now : Int) : Except DomainError Product :=
  let newStock := p.currentStock.Add quantity
  if newStock.Exceeds maxLimit then
    .error (.stockExceedsLimit p.currentStock.Value quantity.Value
      newStock.Value maxLimit.Value)
  else
    .ok { p with currentStock := newStock, lastUpdated := now }

/-- Product.IsRecentlyUpdated: elapsed time strictly below the threshold. -/
def Product.IsRecentlyUpdated (p : Product) (now threshold : Int) : Bool :=
  now - p.lastUpdated < threshold

/-- Product.IsLowStock: current stock strictly below the threshold. -/
def Product.IsLowStock (p : Product) (threshold : Int) : Bool :=
  p.currentStock.Value < threshold

/-- Product.UtilizationPercentage, float64 modelled by Rat: guard against a
zero limit, otherwise current / max * 100. -/
def Product.UtilizationPercentage (p : Product) (maxLimit : StockQuantity) : ℚ :=
  if maxLimit.Value = 0 then 0
  else (p.currentStock.Value : ℚ) / (maxLimit.Value : ℚ) * 100

/-- Tenant entity. -/
structure Tenant where
  id : String
  name : String
  maxStock : StockQuantity
  isActive : Bool
deriving Repr, DecidableEq

/-- Tenant.CanReceiveStock: fails with TenantInactive iff the flag is false. -/
def Tenant.CanReceiveStock (t : Tenant) : Except DomainError Unit :=
  if !t.isActive then .error .tenantInactive else .ok ()

/-- StockAddedEvent audit fact. -/
structure StockAddedEvent where
  productID : String
  tenantID : String
  quantity : StockQuantity
  previous : StockQuantity
  current : StockQuantity
  addedBy : String
  timestamp : Int
  notes : String
deriving Repr, DecidableEq

/-- StockLimitAlertEvent notification payload. -/
structure StockLimitAlertEvent where
  productID : String
  productName : String
  current : StockQuantity
  maxLimit : StockQuantity
  utilization : ℚ
  tenantID : String
  timestamp : Int
deriving Repr, DecidableEq

/-- Input DTO of the use case. -/
structure AddStockRequest where
  productID : String
  quantity : Int
  tenantID : String
  notes : String
  addedBy : String
deriving Repr, DecidableEq

/-- Output DTO of the use case. -/
structure AddStockResponse where
  productID : String
  productName : String
  previousStock : Int
  newStock : Int
  added : Int
  maxAllowed : Int
  utilization : ℚ
deriving Repr, DecidableEq

/-- Observable calls Execute makes on its collaborators, in order.  beginTx
records every call to Begin; commit is recorded only when Commit succeeds
(the durable outcome); rollback records the deferred Rollback invocation;
the alert constructors record the dispatch of the fire-and-forget tasks at
the point the code spawns them. -/
inductive Ev where
  | beginTx
  | rollback
  | findTenant (tenantID : String)
  | findProduct (productID : String)
  | save (product : Product)
  | createAudit (event : StockAddedEvent)
  | sendStockAlert (event : StockLimitAlertEvent)
  | sendLowStockAlert (productID : String) (threshold : Int)
  | publish (event : StockAddedEvent)
  | commit
deriving Repr, DecidableEq

/-- Behaviour of the external collaborators for one run: outcomes of the
fallible calls, whether an event publisher is configured, and the clock. -/
structure Env where
  beginErr : Option DomainError
  tenantResult : Except DomainError Tenant
  productResult : Except DomainError Product
  saveErr : Option DomainError
  createErr : Option DomainError
  commitErr : Option DomainError
  hasPublisher : Bool
  now : Int

/-- validateRequest: product id, tenant id, then quantity, in that order. -/
def validateRequest (req : AddStockRequest) : Option DomainError :=
  if req.productID = "" then some .invalidProductID
  else if req.tenantID = "" then some .tenantNotFound
  else if req.quantity ≤ 0 then some .invalidQuantity
  else none

/-- Body of Execute after a successful Begin (steps 3-15 of the Go code),
returning the outcome and the collaborator calls it performed.  The
recently-updated check is evaluated as in the source; its body is empty
there, so the result is discarded. -/
def executeInTx (env : Env) (req : AddStockRequest) :
    Except DomainError AddStockResponse × List Ev :=
  let t1 : List Ev := [.findTenant req.tenantID]
  match env.tenantResult with
  | .error e => (.error e, t1)
  | .ok tenant =>
    match tenant.CanReceiveStock with
    | .error e => (.error e, t1)
    | .ok _ =>
      let t2 := t1 ++ [.findProduct req.productID]
      match env.productResult with
      | .error e => (.error e, t2)
      | .ok product =>
        match NewStockQuantity req.quantity with
        | .error e => (.error e, t2)
        | .ok quantity =>
          let _recent := product.IsRecentlyUpdated env.now (5 * 60)
          let previousStock := product.currentStock
          match product.AddStock quantity tenant.maxStock env.now with
          | .error e => (.error e, t2)
          | .ok updated =>
            let t3 := t2 ++ [.save updated]
            match env.saveErr with
            | some e => (.error e, t3)
            | none =>
              let stockEvent : StockAddedEvent :=
                { productID := updated.id, tenantID := req.tenantID
                  quantity := quantity, previous := previousStock
                  current := updated.currentStock, addedBy := req.addedBy
                  timestamp := env.now, notes := req.notes }
              let t4 := t3 ++ [.createAudit stockEvent]
              match env.createErr with
              | some e => (.error e, t4)
              | none =>
                let utilization := updated.UtilizationPercentage tenant.maxStock
                let t5 := if utilization > 80 then
                    t4 ++ [.sendStockAlert
                      { productID := updated.id, productName := updated.name
                        current := updated.currentStock
                        maxLimit := tenant.maxStock
                        utilization := utilization, tenantID := req.tenantID
                        timestamp := env.now }]
                  else t4
                let t6 := if updated.IsLowStock 10 then
                    t5 ++ [.sendLowStockAlert updated.id 10]
                  else t5
                let t7 := if env.hasPublisher then t6 ++ [.publish stockEvent]
                  else t6
                match env.commitErr with
                | some e => (.error e, t7)
                | none =>
                  (.ok { productID := updated.id, productName := updated.name
                         previousStock := previousStock.Value
                         newStock := updated.currentStock.Value
                         added := quantity.Value
                         maxAllowed := tenant.maxStock.Value
                         utilization := utilization },
                   t7 ++ [.commit])

/-- Execute: validation, Begin, deferred Rollback (appended to the trace of
every path entered after a successful Begin, matching Go defer semantics),
then the transactional body. -/
def Execute (env : Env) (req : AddStockRequest) :
    Except DomainError AddStockResponse × List Ev :=
  match validateRequest req with
  | some e => (.error e, [])
  | none =>
    match env.beginErr with
    | some e => (.error e, [.beginTx])
    | none =>
      let r := executeInTx env req
      (r.1, .beginTx :: r.2 ++ [.rollback])

/-- The stock value carried by the last save call of a trace, if any. -/
def savedStockIn : List Ev → Option Int
  | [] => none
  | .save p :: rest => ((savedStockIn rest).elim (some p.currentStock.Value) some)
  | _ :: rest => savedStockIn rest

/-- Stock of the stored product before the run, when the product exists. -/
def initialStock (env : Env) : Option Int :=
  match env.productResult with
  | .ok p => some p.currentStock.Value
  | .error _ => none

/-- Unit-of-work persistence semantics (spec section 6): writes issued in
the transactional scope become durable exactly when the commit succeeds;
otherwise the stored product keeps its prior stock. -/
def persistedStock (env : Env) (tr : List Ev) : Option Int :=
  if Ev.commit ∈ tr then ((savedStockIn tr).elim (initialStock env) some)
  else initialStock env

/-- State of the mongo unit of work (part of mongo_repository.go): whether
a session is held (session != nil). -/
structure MongoUow where
  hasSession : Bool
deriving Repr, DecidableEq

/-- Driver calls the mongo unit of work makes. -/
inductive MongoAction where
  | commitTransaction
  | abortTransaction
  | endSession
deriving Repr, DecidableEq

/-- mongoUnitOfWork.Commit: no-op without a session; on CommitTransaction
failure the session is kept; on success the session is ended and cleared. -/
def mongoCommit (u : MongoUow) (commitTxFails : Bool) :
    Except DomainError Unit × MongoUow × List MongoAction :=
  if !u.hasSession then (.ok (), u, [])
  else if commitTxFails then
    (.error (.storageError 1), u, [.commitTransaction])
  else (.ok (), ⟨false⟩, [.commitTransaction, .endSession])

/-- mongoUnitOfWork.Rollback: no-op without a session; on AbortTransaction
failure the session is kept; on success the session is ended and cleared. -/
def mongoRollback (u : MongoUow) (abortTxFails : Bool) :
    Except DomainError Unit × MongoUow × List MongoAction :=
  if !u.hasSession then (.ok (), u, [])
  else if abortTxFails then
    (.error (.storageError 2), u, [.abortTransaction])
  else (.ok (), ⟨false⟩, [.abortTransaction, .endSession])

/-- Fixture tenant: active, ceiling 100. -/
def tenantFix : Tenant :=
  { id := "t1", name := "Acme", maxStock := ⟨100⟩, isActive := true }

/-- Fixture product: stock 10, owned by the fixture tenant. -/
def productFix : Product :=
  { id := "p1", name := "Widget", currentStock := ⟨10⟩, lastUpdated := 0
    tenantID := "t1" }

/-- Fixture environment in which every collaborator call succeeds. -/
def envFix : Env :=
  { beginErr := none
    tenantResult := .ok tenantFix
    productResult := .ok productFix
    saveErr := none
    createErr := none
    commitErr := none
    hasPublisher := false
    now := 1000 }

/-- Fixture request: add 15 units to the fixture product. -/
def reqFix : AddStockRequest :=
  { productID := "p1", quantity := 15, tenantID := "t1", notes := "restock"
    addedBy := "u1" }

/-- Response produced by Execute on the all-success fixture. -/
def respFix : AddStockResponse :=
  { productID := "p1", productName := "Widget", previousStock := 10
    newStock := 25, added := 15, maxAllowed := 100, utilization := 25 }

/-- Trace produced by Execute on the all-success fixture. -/
def trFix : List Ev :=
  [.beginTx, .findTenant "t1", .findProduct "p1",
   .save { id := "p1", name := "Widget", currentStock := ⟨25⟩
           lastUpdated := 1000, tenantID := "t1" },
   .createAudit { productID := "p1", tenantID := "t1", quantity := ⟨15⟩
                  previous := ⟨10⟩, current := ⟨25⟩, addedBy := "u1"
                  timestamp := 1000, notes := "restock" },
   .commit, .rollback]

/-- Fixture tenant with a small ceiling of 10. -/
def tenantSmall : Tenant :=
  { id := "t2", name := "Beta", maxStock := ⟨10⟩, isActive := true }

/-- Fixture product at stock 8 under the small-ceiling tenant. -/
def productSmall : Product :=
  { id := "p2", name := "Gadget", currentStock := ⟨8⟩, lastUpdated := 0
    tenantID := "t2" }

/-- Environment for the limit-violation scenario. -/
def envLimit : Env :=
  { envFix with
    tenantResult := .ok tenantSmall
    productResult := .ok productSmall }

/-- Request adding 5 units, which would push stock 8 past the ceiling 10. -/
def reqLimit : AddStockRequest :=
  { reqFix with productID := "p2", tenantID := "t2", quantity := 5 }

/-- Fixture tenant whose active flag is false. -/
def tenantOff : Tenant :=
  { id := "t3", name := "Gamma", maxStock := ⟨100⟩, isActive := false }

/-- Environment whose tenant lookup yields the inactive tenant. -/
def envOff : Env := { envFix with tenantResult := .ok tenantOff }

/-- Request addressed to the inactive tenant. -/
def reqOff : AddStockRequest := { reqFix with tenantID := "t3" }

/-- Fixture product at stock 75, so adding 10 lands at 85 percent. -/
def productHigh : Product :=
  { id := "p3", name := "Motor", currentStock := ⟨75⟩, lastUpdated := 0
    tenantID := "t1" }

/-- Environment for the high-utilization scenario, with a publisher. -/
def envAlert : Env :=
  { envFix with
    productResult := .ok productHigh
    hasPublisher := true }

/-- Request adding 10 units to the high-stock product. -/
def reqAlert : AddStockRequest := { reqFix with productID := "p3", quantity := 10 }

/-- The stock-limit alert dispatched in the high-utilization scenario. -/
def alertEvFix : StockLimitAlertEvent :=
  { productID := "p3", productName := "Motor", current := ⟨85⟩
    maxLimit := ⟨100⟩, utilization := 85, tenantID := "t1", timestamp := 1000 }

/-- The audit event recorded in the high-utilization scenario. -/
def auditEvFix : StockAddedEvent :=
  { productID := "p3", tenantID := "t1", quantity := ⟨10⟩, previous := ⟨75⟩
    current := ⟨85⟩, addedBy := "u1", timestamp := 1000, notes := "restock" }

/-- The high-utilization environment whose Commit fails. -/
def envCommitFail : Env := { envAlert with commitErr := some (.storageError 7) }

/-- The product state saved in the high-utilization scenario. -/
def savedHigh : Product :=
  { id := "p3", name := "Motor", currentStock := ⟨85⟩, lastUpdated := 1000
    tenantID := "t1" }

/-- Trace of the high-utilization success run. -/
def trAlert : List Ev :=
  [.beginTx, .findTenant "t1", .findProduct "p3", .save savedHigh,
   .createAudit auditEvFix, .sendStockAlert alertEvFix, .publish auditEvFix,
   .commit, .rollback]

/-- Trace of the high-utilization run whose Commit fails: the alert and the
publication already happened, the commit never does. -/
def trCommitFail : List Ev :=
  [.beginTx, .findTenant "t1", .findProduct "p3", .save savedHigh,
   .createAudit auditEvFix, .sendStockAlert alertEvFix, .publish auditEvFix,
   .rollback]

/-- Claim C9: StockQuantity has pure value semantics: construction fails
exactly when the argument is negative and otherwise holds exactly that
value; Add yields the sum of the two values; Exceeds is strict
greater-than on values, so a sum equal to the limit does not exceed it. -/
theorem C9_stock_quantity_value_semantics (n : Int) (a b l : StockQuantity) :
    ((NewStockQuantity n).isOk = true ↔ 0 ≤ n) ∧
    (∀ s, NewStockQuantity n = .ok s → s.Value = n) ∧
    (a.Add b).Value = a.Value + b.Value ∧
    (a.Exceeds l = true ↔ a.Value > l.Value) := by
  refine ⟨?_, ?_, ?_, ?_⟩
  · unfold NewStockQuantity
    split <;> simp [Except.isOk, Except.toBool] <;> omega
  · intro s hs
    unfold NewStockQuantity at hs
    split at hs
    · exact absurd hs (by simp)
    · simp only [Except.ok.injEq] at hs
      simp [← hs, StockQuantity.Value]
  · simp [StockQuantity.Add, StockQuantity.Value]
  · simp [StockQuantity.Exceeds, StockQuantity.Value]

/-- Witness for C9 at n = 4: construction succeeds, holds 4, sums and the
strict comparison behave as stated. -/
theorem C9_witness :
    ((NewStockQuantity 4).isOk = true ↔ (0 : Int) ≤ 4) ∧
    (∀ s, NewStockQuantity 4 = .ok s → s.Value = 4) ∧
    ((StockQuantity.mk 2).Add ⟨3⟩).Value = StockQuantity.Value ⟨2⟩ + StockQuantity.Value ⟨3⟩ ∧
    ((StockQuantity.mk 2).Exceeds ⟨5⟩ = true ↔ StockQuantity.Value ⟨2⟩ > StockQuantity.Value ⟨5⟩) :=
  C9_stock_quantity_value_semantics 4 ⟨2⟩ ⟨3⟩ ⟨5⟩

/-- Claim C6: utilization is 100 * currentStock / maxLimit (as exact
rational arithmetic, standing for the float computation), with the zero
limit guarded to 0 on every input, and current 25 over max 100 gives
exactly 25. -/
theorem C6_utilization_percentage (p : Product) (m : StockQuantity) :
    p.UtilizationPercentage m =
      (if m.Value = 0 then 0
       else 100 * (p.currentStock.Value : ℚ) / (m.Value : ℚ)) ∧
    Product.UtilizationPercentage
      { id := "p", name := "n", currentStock := ⟨25⟩, lastUpdated := 0
        tenantID := "t" } ⟨100⟩ = 25 := by
  constructor
  · unfold Product.UtilizationPercentage
    split
    · rfl
    · ring
  · norm_num [Product.UtilizationPercentage, StockQuantity.Value]

/-- Claim C8 counterexample: the StockQuantity construction does NOT fail
on the non-positive value 0; NewStockQuantity 0 succeeds with value 0. -/
theorem C8_counterexample :
    NewStockQuantity 0 = .ok ⟨0⟩ ∧ (0 : Int) ≤ 0 := by
  constructor
  · rfl
  · decide

/-- Claim C8 (amended): the construction fails deterministically exactly
for negative raw quantities; at zero it succeeds, and the orchestrator
validation already rejects every request with quantity at most 0 before
the construction is reached. -/
theorem C8_negative_quantity_fails (q : Int) (h : q < 0) :
    NewStockQuantity q = .error .quantityNegative := by
  simp [NewStockQuantity, h]

/-- Witness for C8 at q = -1. -/
theorem C8_witness :
    (-1 : Int) < 0 ∧ NewStockQuantity (-1) = .error .quantityNegative :=
  ⟨by decide, C8_negative_quantity_fails (-1) (by decide)⟩

/-- A request passes validation exactly when both identifiers are
non-empty and the quantity is positive. -/
lemma validateRequest_none_iff (req : AddStockRequest) :
    validateRequest req = none ↔
      req.productID ≠ "" ∧ req.tenantID ≠ "" ∧ 0 < req.quantity := by
  unfold validateRequest
  split_ifs <;> simp_all

/-- The last entry of a list that ends in a fixed element. -/
lemma getLast_append_single (l : List Ev) (a : Ev) :
    (l ++ [a]).getLast? = some a := by
  rw [List.getLast?_append_cons]
  rfl

/-- Claim C5 counterexample: a request with quantity 0 but an empty product
id fails with InvalidProductID, not InvalidQuantity, because validation
checks the product id first. -/
theorem C5_counterexample :
    (Execute envFix { productID := "", quantity := 0, tenantID := "t1"
                      notes := "", addedBy := "" }).1
      = .error .invalidProductID ∧
    ((0 : Int) ≤ 0) ∧
    DomainError.invalidProductID ≠ DomainError.invalidQuantity :=
  ⟨rfl, by decide, by decide⟩

/-- Claim C5 (amended): for every request with non-empty product and tenant
identifiers and quantity at most 0, Execute fails with InvalidQuantity and
makes no collaborator call at all: the trace is empty, so no repository
load happens and Begin is never called. -/
theorem C5_nonpositive_quantity_rejected (env : Env) (req : AddStockRequest)
    (hp : req.productID ≠ "") (ht : req.tenantID ≠ "")
    (hq : req.quantity ≤ 0) :
    Execute env req = (.error .invalidQuantity, []) := by
  unfold Execute validateRequest
  simp [hp, ht, hq]

/-- Witness for C5 at a concrete zero-quantity request. -/
theorem C5_witness :
    Execute envFix { productID := "p1", quantity := 0, tenantID := "t1"
                     notes := "", addedBy := "" }
      = (.error .invalidQuantity, []) :=
  C5_nonpositive_quantity_rejected envFix _ (by decide) (by decide) (by decide)

/-- Claim C7: when the loaded tenant is inactive, Execute fails with
TenantInactive, the trace shows only Begin, the tenant lookup and the
deferred Rollback - the product is never loaded, never saved, no audit
record is created - and the persisted stock equals the initial stock. -/
theorem C7_inactive_tenant_no_effect (env : Env) (req : AddStockRequest)
    (t : Tenant) (hv : validateRequest req = none) (hb : env.beginErr = none)
    (ht : env.tenantResult = .ok t) (ha : t.isActive = false) :
    (Execute env req).1 = .error .tenantInactive ∧
    (Execute env req).2 = [.beginTx, .findTenant req.tenantID, .rollback] ∧
    persistedStock env (Execute env req).2 = initialStock env := by
  have hbody : executeInTx env req
      = (.error .tenantInactive, [.findTenant req.tenantID]) := by
    unfold executeInTx
    rw [ht]
    simp [Tenant.CanReceiveStock, ha]
  unfold Execute
  rw [hv, hb, hbody]
  refine ⟨rfl, rfl, ?_⟩
  simp [persistedStock]

/-- Witness for C7 on the inactive-tenant fixture. -/
theorem C7_witness :
    (Execute envOff reqOff).1 = .error .tenantInactive ∧
    (Execute envOff reqOff).2
      = [.beginTx, .findTenant reqOff.tenantID, .rollback] ∧
    persistedStock envOff (Execute envOff reqOff).2 = initialStock envOff :=
  C7_inactive_tenant_no_effect envOff reqOff tenantOff (by decide) rfl rfl rfl

/-- Claim C2: when the current stock plus the requested quantity exceeds
the tenant ceiling, Execute fails with the StockExceedsLimit error whose
fields are exactly the current stock, the quantity being added, their sum
and the ceiling; the trace shows that Save and the audit Create are never
called, and the persisted stock is unchanged. -/
theorem C2_limit_violation (env : Env) (req : AddStockRequest)
    (t : Tenant) (p : Product)
    (hv : validateRequest req = none) (hb : env.beginErr = none)
    (ht : env.tenantResult = .ok t) (ha : t.isActive = true)
    (hp : env.productResult = .ok p)
    (hlim : p.currentStock.Value + req.quantity > t.maxStock.Value) :
    (Execute env req).1
      = .error (.stockExceedsLimit p.currentStock.Value req.quantity
          (p.currentStock.Value + req.quantity) t.maxStock.Value) ∧
    (Execute env req).2
      = [.beginTx, .findTenant req.tenantID, .findProduct req.productID,
         .rollback] ∧
    persistedStock env (Execute env req).2 = some p.currentStock.Value := by
  obtain ⟨-, -, hq⟩ := (validateRequest_none_iff req).1 hv
  have hnq : NewStockQuantity req.quantity = .ok ⟨req.quantity⟩ := by
    unfold NewStockQuantity
    rw [if_neg (by omega)]
  have hex : (p.currentStock.Add ⟨req.quantity⟩).Exceeds t.maxStock = true := by
    simp only [StockQuantity.Add, StockQuantity.Exceeds, StockQuantity.Value,
      decide_eq_true_eq] at hlim ⊢
    omega
  have hadd : p.AddStock ⟨req.quantity⟩ t.maxStock env.now
      = .error (.stockExceedsLimit p.currentStock.Value req.quantity
          (p.currentStock.Value + req.quantity) t.maxStock.Value) := by
    unfold Product.AddStock
    simp only [hex, if_true]
    simp [StockQuantity.Add, StockQuantity.Value]
  have hbody : executeInTx env req
      = (.error (.stockExceedsLimit p.currentStock.Value req.quantity
            (p.currentStock.Value + req.quantity) t.maxStock.Value),
         [.findTenant req.tenantID, .findProduct req.productID]) := by
    unfold executeInTx
    rw [ht]
    simp [Tenant.CanReceiveStock, ha, hp, hnq, hadd]
  unfold Execute
  rw [hv, hb, hbody]
  refine ⟨rfl, rfl, ?_⟩
  simp [persistedStock, initialStock, hp]

/-- Witness for C2 on the small-ceiling fixture: stock 8, adding 5,
ceiling 10. -/
theorem C2_witness :
    (Execute envLimit reqLimit).1
      = .error (.stockExceedsLimit productSmall.currentStock.Value
          reqLimit.quantity
          (productSmall.currentStock.Value + reqLimit.quantity)
          tenantSmall.maxStock.Value) ∧
    (Execute envLimit reqLimit).2
      = [.beginTx, .findTenant reqLimit.tenantID,
         .findProduct reqLimit.productID, .rollback] ∧
    persistedStock envLimit (Execute envLimit reqLimit).2
      = some productSmall.currentStock.Value :=
  C2_limit_violation envLimit reqLimit tenantSmall productSmall
    (by decide) rfl rfl rfl rfl (by decide)

/-- Claim C4: whenever Begin succeeds and the run produces no successful
commit, the deferred Rollback is invoked on the transactional scope and is
the very last collaborator call before Execute returns. -/
theorem C4_rollback_on_noncommit_exit (env : Env) (req : AddStockRequest)
    (hv : validateRequest req = none) (hb : env.beginErr = none)
    (hnc : Ev.commit ∉ (Execute env req).2) :
    Ev.rollback ∈ (Execute env req).2 ∧
    (Execute env req).2.getLast? = some Ev.rollback := by
  unfold Execute
  rw [hv, hb]
  constructor
  · simp
  · show (Ev.beginTx :: (executeInTx env req).2 ++ [Ev.rollback]).getLast?
      = some Ev.rollback
    exact getLast_append_single (Ev.beginTx :: (executeInTx env req).2) Ev.rollback

/-- Witness for C4 on the inactive-tenant run, which Begin enters but
which never commits. -/
theorem C4_witness :
    Ev.rollback ∈ (Execute envOff reqOff).2 ∧
    (Execute envOff reqOff).2.getLast? = some Ev.rollback :=
  C4_rollback_on_noncommit_exit envOff reqOff (by decide) rfl (by decide)

/-- Claim C10: whenever Begin succeeds the deferred Rollback runs
unconditionally - it is the last collaborator call even on runs whose
Commit succeeded - and the mongo unit of work makes this safe: a
successful Commit clears the session, after which Rollback returns
immediately without issuing any driver call. -/
theorem C10_deferred_rollback_unconditional (env : Env)
    (req : AddStockRequest) (hv : validateRequest req = none)
    (hb : env.beginErr = none) :
    Ev.rollback ∈ (Execute env req).2 ∧
    (Execute env req).2.getLast? = some Ev.rollback ∧
    (∀ u : MongoUow, u.hasSession = true → ∀ f,
      mongoCommit u false
        = (.ok (), ⟨false⟩, [.commitTransaction, .endSession]) ∧
      mongoRollback ⟨false⟩ f = (.ok (), ⟨false⟩, [])) := by
  refine ⟨?_, ?_, ?_⟩
  · unfold Execute
    rw [hv, hb]
    simp
  · unfold Execute
    rw [hv, hb]
    show (Ev.beginTx :: (executeInTx env req).2 ++ [Ev.rollback]).getLast?
      = some Ev.rollback
    exact getLast_append_single (Ev.beginTx :: (executeInTx env req).2) Ev.rollback
  · intro u hu f
    constructor
    · unfold mongoCommit
      rw [hu]
      rfl
    · rfl

/-- Witness for C10 on the all-success fixture run, whose Commit
succeeds and whose trace still ends with the deferred Rollback. -/
theorem C10_witness :
    Ev.rollback ∈ (Execute envFix reqFix).2 ∧
    (Execute envFix reqFix).2.getLast? = some Ev.rollback ∧
    (∀ u : MongoUow, u.hasSession = true → ∀ f,
      mongoCommit u false
        = (.ok (), ⟨false⟩, [.commitTransaction, .endSession]) ∧
      mongoRollback ⟨false⟩ f = (.ok (), ⟨false⟩, [])) :=
  C10_deferred_rollback_unconditional envFix reqFix (by decide) rfl

/-- Characterization of a successful AddStock: the sum does not exceed the
limit and the result carries the summed stock and the fresh timestamp. -/
lemma AddStock_ok_iff (p : Product) (q m : StockQuantity) (now : Int)
    (u : Product) :
    p.AddStock q m now = .ok u ↔
      (p.currentStock.Add q).Exceeds m = false ∧
      u = { p with
            currentStock := p.currentStock.Add q
            lastUpdated := now } := by
  simp only [Product.AddStock]
  split
  · simp_all
  · rename_i hno
    simp only [Bool.not_eq_true] at hno
    simp only [hno, Except.ok.injEq, true_and]
    exact eq_comm

/-- Evaluation of the high-utilization success run. -/
lemma Execute_envAlert_eq :
    Execute envAlert reqAlert =
      (.ok { productID := "p3", productName := "Motor", previousStock := 75
             newStock := 85, added := 10, maxAllowed := 100
             utilization := 85 },
       trAlert) := by
  norm_num [Execute, executeInTx, envAlert, envFix, reqAlert, reqFix,
    productHigh, tenantFix, Tenant.CanReceiveStock, NewStockQuantity,
    Product.AddStock, StockQuantity.Add, StockQuantity.Exceeds,
    StockQuantity.Value, Product.UtilizationPercentage, Product.IsLowStock,
    validateRequest, trAlert, savedHigh, alertEvFix, auditEvFix,
    show ("p3" : String) ≠ "" from by decide,
    show ("t1" : String) ≠ "" from by decide]

/-- Evaluation of the high-utilization run whose Commit fails. -/
lemma Execute_envCommitFail_eq :
    Execute envCommitFail reqAlert = (.error (.storageError 7), trCommitFail) := by
  norm_num [Execute, executeInTx, envCommitFail, envAlert, envFix, reqAlert,
    reqFix, productHigh, tenantFix, Tenant.CanReceiveStock, NewStockQuantity,
    Product.AddStock, StockQuantity.Add, StockQuantity.Exceeds,
    StockQuantity.Value, Product.UtilizationPercentage, Product.IsLowStock,
    validateRequest, trCommitFail, savedHigh, alertEvFix, auditEvFix,
    show ("p3" : String) ≠ "" from by decide,
    show ("t1" : String) ≠ "" from by decide]

/-- Claim C3 counterexample: on a run whose Commit fails - so the
transaction is never successfully committed and the mutation is not
durable - the stock-limit alert has already been dispatched and the event
already published, because the code runs steps 11-13 before Commit. -/
theorem C3_counterexample :
    Ev.sendStockAlert alertEvFix ∈ (Execute envCommitFail reqAlert).2 ∧
    Ev.publish auditEvFix ∈ (Execute envCommitFail reqAlert).2 ∧
    Ev.commit ∉ (Execute envCommitFail reqAlert).2 ∧
    (Execute envCommitFail reqAlert).1 = .error (.storageError 7) := by
  rw [Execute_envCommitFail_eq]
  refine ⟨by decide, by decide, by decide, rfl⟩

/-- Claim C3 (amended): the alert dispatches and the optional event
publication are evaluated only after the product save and the audit-record
creation have succeeded inside the transactional scope - though before the
commit, so they are not gated on durability; in particular a run that
exits before the audit record is created dispatches no alert and publishes
no event. -/
theorem C3_dispatch_requires_persistence_steps (env : Env)
    (req : AddStockRequest)
    (h : (∃ a, Ev.sendStockAlert a ∈ (Execute env req).2) ∨
         (∃ pid th, Ev.sendLowStockAlert pid th ∈ (Execute env req).2) ∨
         (∃ ev, Ev.publish ev ∈ (Execute env req).2)) :
    (∃ p, Ev.save p ∈ (Execute env req).2) ∧
    (∃ ev, Ev.createAudit ev ∈ (Execute env req).2) := by
  rcases hE : Execute env req with ⟨res, tr⟩
  rw [hE] at h
  simp only [Execute, executeInTx] at hE
  repeat' split at hE
  all_goals
    injection hE with h1 h2
  all_goals
    subst h2
  all_goals
    simp_all

/-- Witness for C3 on the high-utilization success run: the dispatched
alert implies both a Save and an audit Create appear in the trace. -/
theorem C3_witness :
    (∃ p, Ev.save p ∈ (Execute envAlert reqAlert).2) ∧
    (∃ ev, Ev.createAudit ev ∈ (Execute envAlert reqAlert).2) :=
  C3_dispatch_requires_persistence_steps envAlert reqAlert
    (Or.inl ⟨alertEvFix, by rw [Execute_envAlert_eq]; decide⟩)

/-- savedStockIn on the empty trace. -/
@[simp] lemma savedStockIn_nil : savedStockIn [] = none := rfl

/-- savedStockIn keeps the stock of the last save call. -/
@[simp] lemma savedStockIn_save (p : Product) (rest : List Ev) :
    savedStockIn (.save p :: rest)
      = ((savedStockIn rest).elim (some p.currentStock.Value) some) := rfl

/-- savedStockIn skips a Begin call. -/
@[simp] lemma savedStockIn_beginTx (rest : List Ev) :
    savedStockIn (.beginTx :: rest) = savedStockIn rest := rfl

/-- savedStockIn skips a Rollback call. -/
@[simp] lemma savedStockIn_rollback (rest : List Ev) :
    savedStockIn (.rollback :: rest) = savedStockIn rest := rfl

/-- savedStockIn skips a tenant lookup. -/
@[simp] lemma savedStockIn_findTenant (s : String) (rest : List Ev) :
    savedStockIn (.findTenant s :: rest) = savedStockIn rest := rfl

/-- savedStockIn skips a product lookup. -/
@[simp] lemma savedStockIn_findProduct (s : String) (rest : List Ev) :
    savedStockIn (.findProduct s :: rest) = savedStockIn rest := rfl

/-- savedStockIn skips an audit Create call. -/
@[simp] lemma savedStockIn_createAudit (e : StockAddedEvent) (rest : List Ev) :
    savedStockIn (.createAudit e :: rest) = savedStockIn rest := rfl

/-- savedStockIn skips a stock-limit alert dispatch. -/
@[simp] lemma savedStockIn_sendStockAlert (e : StockLimitAlertEvent)
    (rest : List Ev) :
    savedStockIn (.sendStockAlert e :: rest) = savedStockIn rest := rfl

/-- savedStockIn skips a low-stock alert dispatch. -/
@[simp] lemma savedStockIn_sendLowStockAlert (s : String) (th : Int)
    (rest : List Ev) :
    savedStockIn (.sendLowStockAlert s th :: rest) = savedStockIn rest := rfl

/-- savedStockIn skips a publish call. -/
@[simp] lemma savedStockIn_publish (e : StockAddedEvent) (rest : List Ev) :
    savedStockIn (.publish e :: rest) = savedStockIn rest := rfl

/-- savedStockIn skips a Commit call. -/
@[simp] lemma savedStockIn_commit (rest : List Ev) :
    savedStockIn (.commit :: rest) = savedStockIn rest := rfl

/-- Evaluation of the all-success fixture run. -/
lemma Execute_envFix_eq : Execute envFix reqFix = (.ok respFix, trFix) := by
  norm_num [Execute, executeInTx, envFix, reqFix, productFix, tenantFix,
    Tenant.CanReceiveStock, NewStockQuantity, Product.AddStock,
    StockQuantity.Add, StockQuantity.Exceeds, StockQuantity.Value,
    Product.UtilizationPercentage, Product.IsLowStock, validateRequest,
    respFix, trFix, show ("p1" : String) ≠ "" from by decide,
    show ("t1" : String) ≠ "" from by decide]

/-- Claim C1: on every successful Execute, the response satisfies
newStock = previousStock + added, the stock passed to the product
repository Save equals the response's newStock, and - the commit having
succeeded - that value is exactly the persisted product stock. -/
theorem C1_success_invariant (env : Env) (req : AddStockRequest)
    (resp : AddStockResponse) (tr : List Ev)
    (h : Execute env req = (.ok resp, tr)) :
    resp.newStock = resp.previousStock + resp.added ∧
    savedStockIn tr = some resp.newStock ∧
    persistedStock env tr = some resp.newStock := by
  simp only [Execute, executeInTx] at h
  repeat' split at h
  all_goals
    injection h with h1 h2
  all_goals
    try dsimp only at h1 h2
  all_goals
    first
    | exact Except.noConfusion h1
    | (injection h1 with h1
       subst h1
       subst h2
       simp_all [AddStock_ok_iff, StockQuantity.Add, StockQuantity.Value,
         persistedStock, initialStock, Option.elim])

/-- Witness for C1 on the all-success fixture run. -/
theorem C1_witness :
    respFix.newStock = respFix.previousStock + respFix.added ∧
    savedStockIn trFix = some respFix.newStock ∧
    persistedStock envFix trFix = some respFix.newStock :=
  C1_success_invariant envFix reqFix respFix trFix Execute_envFix_eq

end StockDemo
